import Mathlib

/-!
Shallow embedding of the PCBS_EyeTracker game logic (`src/main.py`).

The program is a webcam gaze game: a five-step calibration (middle, top,
right, bottom, left) captures pupil keypoint positions into the
`eyes_position` dictionary, derives directional thresholds at the last
calibration step, and then plays a shrinking-circle challenge driven by
`play_game`.

Modelling conventions:
* Keypoint coordinates are `float` in Python; every claim involves only
  exact arithmetic (differences and comparisons), so coordinates are
  modelled as `ℤ`, which the kernel can evaluate.
* Python is dynamically typed and the interesting behaviour of this
  program includes its runtime errors, so values flowing through the
  `eyes_position` dictionary are a dynamic type `PyVal` (`None`, a
  number, or a keypoint coordinate pair), and fallible operations return
  `Except PyErr`.
* External vision and rendering calls (OpenCV, pygame) are abstracted:
  a tick's detection results (face present, per-eye keypoint lists) are
  inputs, and drawing calls are dropped (they do not touch the state the
  claims are about).
-/

namespace EyeTracker

/-- Python runtime errors that the embedded fragments can raise. -/
inductive PyErr where
  | keyError (k : String)
  | indexError
  | typeError
  | assertionError
  deriving DecidableEq

/-- Dynamic Python values stored in the program's state: `none` is Python
`None`, `num` a number, `pt` a keypoint coordinate pair (`KeyPoint.pt`). -/
inductive PyVal where
  | none
  | num (z : ℤ)
  | pt (x y : ℤ)
  deriving DecidableEq

/-- Python `a - b` in a position whose result is used as a number: only
number minus number succeeds; `None` or coordinate tuples raise
`TypeError` (tuples do not support `-` in Python). -/
def pySub : PyVal → PyVal → Except PyErr ℤ
  | .num a, .num b => .ok (a - b)
  | _, _ => .error .typeError

/-- Python list indexing `l[i]` for a nonnegative index: `IndexError`
when out of range. -/
def listIndex (l : List PyVal) (i : ℕ) : Except PyErr PyVal :=
  match l.get? i with
  | some v => .ok v
  | Option.none => .error .indexError

/-- The `eyes_position` dictionary: an insertion-ordered association list
from direction names to the list of captured samples. -/
abbrev EPos := List (String × List PyVal)

/-- Association-list lookup (first binding wins, as in a dict). -/
def lookupKey : EPos → String → Option (List PyVal)
  | [], _ => Option.none
  | (k', v) :: rest, k => if k' = k then some v else lookupKey rest k

/-- Python `d[k]`: raises `KeyError` when the key is absent. -/
def getItem (ep : EPos) (k : String) : Except PyErr (List PyVal) :=
  match lookupKey ep k with
  | some v => .ok v
  | Option.none => .error (.keyError k)

/-- Python `d[k] = v`: replace the existing binding in place, otherwise
append a new binding. -/
def setKey : EPos → String → List PyVal → EPos
  | [], k, v => [(k, v)]
  | (k', v') :: rest, k, v =>
      if k' = k then (k', v) :: rest else (k', v') :: setKey rest k v

/-- The `thresholds` dictionary (`src/main.py` lines 290-295), with its
four entries in insertion order top, bottom, right, left. -/
structure Thresholds where
  top : ℤ
  bottom : ℤ
  right : ℤ
  left : ℤ
  deriving DecidableEq

/-- One threshold entry of the derivation loop (lines 362 and 365):
`eyes_position[key][i] - eyes_position['middle'][i]`, evaluated in
Python's order.  Note that `eyes_position[key]` is the *list of captured
samples*, so index `i` selects the i-th sample (a coordinate pair), not
a coordinate of a sample. -/
def axis_diff (ep : EPos) (key : String) (i : ℕ) : Except PyErr ℤ :=
  match getItem ep key with
  | .error e => .error e
  | .ok l =>
    match listIndex l i with
    | .error e => .error e
    | .ok a =>
      match getItem ep "middle" with
      | .error e => .error e
      | .ok m =>
        match listIndex m i with
        | .error e => .error e
        | .ok b => pySub a b

/-- Threshold derivation (lines 357-365): iterate over the `thresholds`
dict in insertion order; vertical keys use index 1, horizontal keys
index 0.  The first raised exception aborts the loop (and, in `main`,
the program). -/
def derive_thresholds (ep : EPos) : Except PyErr Thresholds :=
  match axis_diff ep "top" 1 with
  | .error e => .error e
  | .ok t =>
    match axis_diff ep "bottom" 1 with
    | .error e => .error e
    | .ok b =>
      match axis_diff ep "right" 0 with
      | .error e => .error e
      | .ok r =>
        match axis_diff ep "left" 0 with
        | .error e => .error e
        | .ok l => .ok ⟨t, b, r, l⟩

/-- Outcome of one `play_game` call: `won` is the `exit(0)` branch
("Woah user won !"), `active r` the returned radius. -/
inductive GR where
  | won
  | active (r : ℤ)
  deriving DecidableEq

/-- `play_game` (lines 244-256), with the dynamic typing of its call
site: `position` and `center_position` are Python sequences, indexed for
the x (0) and y (1) components, and the component differences are
dynamic subtractions. -/
def play_game (initial_radius radius : ℤ) (thresholds : Thresholds)
    (position center_position : List PyVal) : Except PyErr GR :=
  match listIndex position 0 with
  | .error e => .error e
  | .ok p0 =>
    match listIndex center_position 0 with
    | .error e => .error e
    | .ok c0 =>
      match pySub p0 c0 with
      | .error e => .error e
      | .ok dx =>
        match listIndex position 1 with
        | .error e => .error e
        | .ok p1 =>
          match listIndex center_position 1 with
          | .error e => .error e
          | .ok c1 =>
            match pySub p1 c1 with
            | .error e => .error e
            | .ok dy =>
              if thresholds.top > dy ∨ thresholds.bottom < dy ∨
                  thresholds.right < dx ∨ thresholds.left > dx then
                .ok (.active initial_radius)
              else if radius < 5 then
                .ok .won
              else
                .ok (.active (radius - 5))

/-- `blob_process` (lines 139-185): the assertion on the threshold
parameter, then the image pipeline (thresholding, morphology, detector),
abstracted as a function of the threshold whose result is the keypoint
list. -/
def blob_process (threshold : ℤ) (detect_pipeline : ℤ → List PyVal) :
    Except PyErr (List PyVal) :=
  if 0 ≤ threshold ∧ threshold ≤ 255 then .ok (detect_pipeline threshold)
  else .error .assertionError

/-- `keys = ['middle', 'top', 'right', 'bottom', 'left']` (line 287). -/
def keys : List String := ["middle", "top", "right", "bottom", "left"]

/-- Python `keys[step - 1]` (lines 314, 331): for `step = 0` the index
is `-1`, which Python resolves to the last element `"left"`; an index
beyond the list raises `IndexError`. -/
def key_at (step : ℕ) : Except PyErr String :=
  if step = 0 then .ok "left"
  else
    match keys.get? (step - 1) with
    | some k => .ok k
    | Option.none => .error .indexError

/-- One eye's capture gate (lines 313-318 for the left eye, 330-335 for
the right eye): if the gate is armed, append the present sample to the
current direction's list (`.get(keyname, [])` defaulting) and clear the
gate; otherwise leave the dictionary and the gate untouched. -/
def observe_capture (armed : Bool) (step : ℕ) (ep : EPos) (sample : PyVal) :
    Except PyErr (EPos × Bool) :=
  if armed then
    match key_at step with
    | .error e => .error e
    | .ok keyname =>
      let pos := (lookupKey ep keyname).getD []
      .ok (setKey ep keyname (pos ++ [sample]), false)
  else .ok (ep, armed)

/-- The mutable session state of `main` (lines 283-295 plus the radius
of line 267): calibration step, the two per-eye capture gates, the
`eyes_position` dictionary, the `thresholds` dictionary, the current
per-eye gaze samples, and the game radius. -/
structure State where
  step : ℕ
  capture0 : Bool
  capture1 : Bool
  eyes_position : EPos
  thresholds : Thresholds
  current0 : PyVal
  current1 : PyVal
  radius : ℤ
  initial_radius : ℤ
  deriving DecidableEq

/-- The state at loop entry: step 0, gates disarmed, empty dictionary,
all thresholds 0, both current positions `None`, radius at its initial
value `max(W, H)` (taken as a parameter). -/
def init (ir : ℤ) : State :=
  { step := 0, capture0 := false, capture1 := false, eyes_position := [],
    thresholds := ⟨0, 0, 0, 0⟩, current0 := .none, current1 := .none,
    radius := ir, initial_radius := ir }

/-- The pygame events a tick can receive: window quit, an
escape-or-q keypress (both exit), the space keypress, anything else. -/
inductive Ev where
  | quit
  | keyQ
  | space
  | other
  deriving DecidableEq

/-- External inputs of one tick: whether a face was detected; for each
eye, whether the eye region was detected and, if so, the keypoint list
the blob detector returns for it; the trackbar threshold; the pygame
event queue; whether `waitKey` reports `q`. -/
structure TickInput where
  face : Bool
  leftEye : Option (List PyVal)
  rightEye : Option (List PyVal)
  threshold : ℤ
  events : List Ev
  waitQ : Bool
  deriving DecidableEq

/-- One eye's detection block (lines 305-320 for the left eye, 322-337
mirrored for the right): when the eye region is present, run
`blob_process`, read `keypoints[0].pt` (an `IndexError` when the
detector returned no keypoints), store it as the current position and
run the capture gate; when absent, the current position becomes `None`.
Returns the new current position, dictionary and gate. -/
def eye_block (eye : Option (List PyVal)) (threshold : ℤ) (armed : Bool)
    (step : ℕ) (ep : EPos) : Except PyErr (PyVal × EPos × Bool) :=
  match eye with
  | some klist =>
    match blob_process threshold (fun _ => klist) with
    | .error e => .error e
    | .ok kps =>
      match listIndex kps 0 with
      | .error e => .error e
      | .ok p =>
        match observe_capture armed step ep p with
        | .error e => .error e
        | .ok (ep', armed') => .ok (p, ep', armed')
  | Option.none => .ok (.none, ep, armed)

/-- The detection phase of a tick (lines 299-337): nothing happens
without a face; with a face, the left-eye block runs before the
right-eye block. -/
def detect_phase (s : State) (i : TickInput) : Except PyErr State :=
  if i.face then
    match eye_block i.leftEye i.threshold s.capture0 s.step s.eyes_position with
    | .error e => .error e
    | .ok (c0, ep0, a0) =>
      match eye_block i.rightEye i.threshold s.capture1 s.step ep0 with
      | .error e => .error e
      | .ok (c1, ep1, a1) =>
        .ok { s with current0 := c0, current1 := c1, eyes_position := ep1,
                     capture0 := a0, capture1 := a1 }
  else .ok s

/-- The event loop of a tick (lines 344-368): quit and escape-or-q exit
the process (`.ok Option.none`); space, while `step < 5`, first derives
the thresholds when the current step is 4 (an exception there aborts),
then increments the step and arms both capture gates. -/
def events_phase : State → List Ev → Except PyErr (Option State)
  | s, [] => .ok (some s)
  | _, .quit :: _ => .ok Option.none
  | _, .keyQ :: _ => .ok Option.none
  | s, .other :: rest => events_phase s rest
  | s, .space :: rest =>
      if s.step < 5 then
        if s.step = 4 then
          match derive_thresholds s.eyes_position with
          | .error e => .error e
          | .ok t =>
              events_phase { s with thresholds := t, step := s.step + 1,
                                    capture0 := true, capture1 := true } rest
        else
          events_phase { s with step := s.step + 1,
                                capture0 := true, capture1 := true } rest
      else events_phase s rest

/-- The playing phase of a tick (lines 375-377): at step 5, call
`play_game` with the current per-eye positions as the gaze and
`eyes_position["center"]` as the center (a `KeyError` when absent); a
win exits the process, otherwise the radius is updated. -/
def game_phase (s : State) : Except PyErr (Option State) :=
  if s.step = 5 then
    match getItem s.eyes_position "center" with
    | .error e => .error e
    | .ok c =>
      match play_game s.initial_radius s.radius s.thresholds
              [s.current0, s.current1] c with
      | .error e => .error e
      | .ok .won => .ok Option.none
      | .ok (.active r) => .ok (some { s with radius := r })
  else .ok (some s)

/-- Outcome of a tick: a next state, a process exit (quit, win or the
`waitKey` break), or an uncaught exception. -/
inductive TickOut where
  | ok (s : State)
  | exited
  | err (e : PyErr)
  deriving DecidableEq

/-- One iteration of the main loop (lines 297-382): detection phase,
then the event loop, then the playing phase, then the `waitKey` check. -/
def tick (s : State) (i : TickInput) : TickOut :=
  match detect_phase s i with
  | .error e => .err e
  | .ok s1 =>
    match events_phase s1 i.events with
    | .error e => .err e
    | .ok Option.none => .exited
    | .ok (some s2) =>
      match game_phase s2 with
      | .error e => .err e
      | .ok Option.none => .exited
      | .ok (some s3) => if i.waitQ then .exited else .ok s3

/-- States a session can be in after some number of completed ticks. -/
inductive Reachable (ir : ℤ) : State → Prop where
  | base : Reachable ir (init ir)
  | tick_ok {s s' : State} {i : TickInput} :
      Reachable ir s → tick s i = .ok s' → Reachable ir s'

/-- Run a sequence of ticks, stopping at the first exit or exception. -/
def run_trace : State → List TickInput → TickOut
  | s, [] => .ok s
  | s, i :: rest =>
    match tick s i with
    | .ok s' => run_trace s' rest
    | out => out

/-- Project the next-state of a tick outcome, when there is one. -/
def stateOf : TickOut → Option State
  | .ok s => some s
  | _ => Option.none

deriving instance DecidableEq for Except

/-! ## Concrete inputs used by the claims -/

/-- A fully captured calibration dictionary: every direction captured by
both eyes (two samples each), each direction's fixation differing from
middle only along the relevant axis (top 7 above, right 9 right, bottom
8 below, left 6 left). -/
def ep_full : EPos :=
  [("middle", [.pt 0 0, .pt 0 0]), ("top", [.pt 0 (-7), .pt 0 (-7)]),
   ("right", [.pt 9 0, .pt 9 0]), ("bottom", [.pt 0 8, .pt 0 8]),
   ("left", [.pt (-6) 0, .pt (-6) 0])]

/-- The same dictionary with zero captured samples for the top
direction (its key is absent, as `eyes_position` only ever gains a key
on a capture). -/
def ep_missing_top : EPos :=
  [("middle", [.pt 0 0, .pt 0 0]), ("right", [.pt 9 0, .pt 9 0]),
   ("bottom", [.pt 0 8, .pt 0 8]), ("left", [.pt (-6) 0, .pt (-6) 0])]

/-- The thresholds of the spec's concrete challenge scenario. -/
def thrEx : Thresholds := ⟨-10, 10, 8, -8⟩

/-- Iterated `play_game` calls starting from radius 100, feeding the
always-in-bounds gaze `(0, 0)` at center `(0, 0)`: `challenge_chain n`
is the outcome after the n-th call (a won game stays won). -/
def challenge_chain : ℕ → Except PyErr GR
  | 0 => .ok (.active 100)
  | n + 1 =>
    match challenge_chain n with
    | .error e => .error e
    | .ok .won => .ok .won
    | .ok (.active r) => play_game 100 r thrEx [.num 0, .num 0] [.num 0, .num 0]

/-- A tick with no detection and no input. -/
def idle_input : TickInput :=
  { face := false, leftEye := Option.none, rightEye := Option.none,
    threshold := 0, events := [], waitQ := false }

/-- A tick whose only event is the space keypress (no detection). -/
def space_input : TickInput :=
  { face := false, leftEye := Option.none, rightEye := Option.none,
    threshold := 0, events := [.space], waitQ := false }

/-- A tick in which both eyes are detected with pupil keypoint `p` and
no key is pressed. -/
def look_input (p : PyVal) : TickInput :=
  { face := true, leftEye := some [p], rightEye := some [p],
    threshold := 42, events := [], waitQ := false }

/-- A standard calibration session up to (not including) the final
space press: space, fixate middle, space, fixate top, space, fixate
right, space, fixate bottom.  Each fixation tick captures both eyes'
samples for the direction the user was just asked to look at. -/
def calib_trace : List TickInput :=
  [space_input, look_input (.pt 0 0), space_input, look_input (.pt 0 (-7)),
   space_input, look_input (.pt 9 0), space_input, look_input (.pt 0 8)]

/-! ## Dictionary and key lemmas -/

theorem lookupKey_setKey_self (ep : EPos) (k : String) (v : List PyVal) :
    lookupKey (setKey ep k v) k = some v := by
  induction ep with
  | nil => simp [setKey, lookupKey]
  | cons hd tl ih =>
    obtain ⟨k0, v0⟩ := hd
    by_cases hk : k0 = k
    · subst hk
      simp [setKey, lookupKey]
    · simp [setKey, lookupKey, hk, ih]

theorem lookupKey_setKey_ne (ep : EPos) (k k' : String) (v : List PyVal)
    (h : k' ≠ k) : lookupKey (setKey ep k v) k' = lookupKey ep k' := by
  induction ep with
  | nil => simp [setKey, lookupKey, Ne.symm h]
  | cons hd tl ih =>
    obtain ⟨k0, v0⟩ := hd
    by_cases hk : k0 = k
    · subst hk
      simp [setKey, lookupKey, Ne.symm h]
    · simp only [setKey, if_neg hk, lookupKey]
      split
      · rfl
      · exact ih

theorem key_at_mem (st : ℕ) (k : String) (h : key_at st = .ok k) :
    k ∈ keys := by
  unfold key_at at h
  split at h
  · cases h
    decide
  · split at h
    · rename_i k0 hk0
      cases h
      exact List.get?_mem hk0
    · cases h

theorem key_at_ne_center (st : ℕ) (k : String) (h : key_at st = .ok k) :
    k ≠ "center" := by
  intro hc
  subst hc
  exact absurd (key_at_mem st _ h) (by decide)

/-! ## Phase-preservation lemmas -/

theorem observe_capture_center (armed : Bool) (st : ℕ) (ep : EPos)
    (p : PyVal) (ep' : EPos) (a' : Bool)
    (h : observe_capture armed st ep p = .ok (ep', a')) :
    lookupKey ep' "center" = lookupKey ep "center" := by
  unfold observe_capture at h
  split at h
  · split at h
    · cases h
    · rename_i keyname hkey
      cases h
      exact lookupKey_setKey_ne _ _ _ _ (Ne.symm (key_at_ne_center st keyname hkey))
  · cases h
    rfl

theorem eye_block_center (eye : Option (List PyVal)) (t : ℤ) (armed : Bool)
    (st : ℕ) (ep : EPos) (p : PyVal) (ep' : EPos) (a' : Bool)
    (h : eye_block eye t armed st ep = .ok (p, ep', a')) :
    lookupKey ep' "center" = lookupKey ep "center" := by
  unfold eye_block at h
  split at h
  · split at h
    · cases h
    · split at h
      · cases h
      · split at h
        · cases h
        · rename_i hobs
          cases h
          exact observe_capture_center _ _ _ _ _ _ hobs
  · cases h
    rfl

theorem detect_phase_center (s : State) (i : TickInput) (s1 : State)
    (h : detect_phase s i = .ok s1) :
    lookupKey s1.eyes_position "center" = lookupKey s.eyes_position "center" := by
  unfold detect_phase at h
  split at h
  · split at h
    · cases h
    · rename_i hL
      split at h
      · cases h
      · rename_i hR
        cases h
        exact (eye_block_center _ _ _ _ _ _ _ _ hR).trans
          (eye_block_center _ _ _ _ _ _ _ _ hL)
  · cases h
    rfl

theorem detect_phase_step (s : State) (i : TickInput) (s1 : State)
    (h : detect_phase s i = .ok s1) : s1.step = s.step := by
  unfold detect_phase at h
  split at h
  · split at h
    · cases h
    · split at h
      · cases h
      · cases h
        rfl
  · cases h
    rfl

theorem events_phase_eyes (s : State) (evs : List Ev) (s' : State)
    (h : events_phase s evs = .ok (some s')) :
    s'.eyes_position = s.eyes_position := by
  induction evs generalizing s with
  | nil =>
    unfold events_phase at h
    cases h
    rfl
  | cons e rest ih =>
    cases e with
    | quit => cases h
    | keyQ => cases h
    | other => exact ih s h
    | space =>
      unfold events_phase at h
      split at h
      · split at h
        · split at h
          · cases h
          · have h' := ih _ h
            exact h'
        · have h' := ih _ h
          exact h'
      · exact ih _ h

theorem events_phase_step_mono (s : State) (evs : List Ev) (s' : State)
    (h : events_phase s evs = .ok (some s')) : s.step ≤ s'.step := by
  induction evs generalizing s with
  | nil =>
    unfold events_phase at h
    cases h
    exact le_refl _
  | cons e rest ih =>
    cases e with
    | quit => cases h
    | keyQ => cases h
    | other => exact ih s h
    | space =>
      unfold events_phase at h
      split at h
      · split at h
        · split at h
          · cases h
          · exact le_trans (Nat.le_succ _) (ih _ h)
        · exact le_trans (Nat.le_succ _) (ih _ h)
      · exact ih _ h

theorem events_phase_step_le (s : State) (evs : List Ev) (s' : State)
    (hle : s.step ≤ 5) (h : events_phase s evs = .ok (some s')) :
    s'.step ≤ 5 := by
  induction evs generalizing s with
  | nil =>
    unfold events_phase at h
    cases h
    exact hle
  | cons e rest ih =>
    cases e with
    | quit => cases h
    | keyQ => cases h
    | other => exact ih s hle h
    | space =>
      unfold events_phase at h
      split at h
      · rename_i hlt
        split at h
        · split at h
          · cases h
          · exact ih _ (Nat.succ_le_of_lt hlt) h
        · exact ih _ (Nat.succ_le_of_lt hlt) h
      · exact ih _ hle h

theorem events_phase_terminal (s : State) (evs : List Ev) (h5 : s.step = 5) :
    events_phase s evs = .ok Option.none ∨ events_phase s evs = .ok (some s) := by
  induction evs with
  | nil =>
    right
    rfl
  | cons e rest ih =>
    cases e with
    | quit => left; rfl
    | keyQ => left; rfl
    | other => exact ih
    | space =>
      have : ¬ s.step < 5 := by omega
      unfold events_phase
      rw [if_neg this]
      exact ih

theorem game_phase_eyes_step (s : State) (s' : State)
    (h : game_phase s = .ok (some s')) :
    s'.eyes_position = s.eyes_position ∧ s'.step = s.step := by
  unfold game_phase at h
  split at h
  · split at h
    · cases h
    · split at h
      · cases h
      · cases h
      · cases h
        exact ⟨rfl, rfl⟩
  · cases h
    exact ⟨rfl, rfl⟩

theorem tick_center (s : State) (i : TickInput) (s' : State)
    (h : tick s i = .ok s') :
    lookupKey s'.eyes_position "center" = lookupKey s.eyes_position "center" := by
  unfold tick at h
  split at h
  · cases h
  · rename_i s1 h1
    split at h
    · cases h
    · cases h
    · rename_i s2 h2
      split at h
      · cases h
      · cases h
      · rename_i s3 h3
        split at h
        · cases h
        · cases h
          rw [(game_phase_eyes_step _ _ h3).1, events_phase_eyes _ _ _ h2,
            detect_phase_center _ _ _ h1]

theorem tick_step_mono (s : State) (i : TickInput) (s' : State)
    (h : tick s i = .ok s') : s.step ≤ s'.step := by
  unfold tick at h
  split at h
  · cases h
  · rename_i s1 h1
    split at h
    · cases h
    · cases h
    · rename_i s2 h2
      split at h
      · cases h
      · cases h
      · rename_i s3 h3
        split at h
        · cases h
        · cases h
          rw [(game_phase_eyes_step _ _ h3).2]
          calc s.step = s1.step := (detect_phase_step _ _ _ h1).symm
            _ ≤ s2.step := events_phase_step_mono _ _ _ h2

theorem tick_step_le (s : State) (i : TickInput) (s' : State)
    (hle : s.step ≤ 5) (h : tick s i = .ok s') : s'.step ≤ 5 := by
  unfold tick at h
  split at h
  · cases h
  · rename_i s1 h1
    split at h
    · cases h
    · cases h
    · rename_i s2 h2
      split at h
      · cases h
      · cases h
      · rename_i s3 h3
        split at h
        · cases h
        · cases h
          rw [(game_phase_eyes_step _ _ h3).2]
          exact events_phase_step_le _ _ _ ((detect_phase_step _ _ _ h1) ▸ hle) h2

theorem reachable_center (ir : ℤ) (s : State) (h : Reachable ir s) :
    lookupKey s.eyes_position "center" = Option.none := by
  induction h with
  | base => rfl
  | tick_ok _ ht ih => rw [tick_center _ _ _ ht, ih]

theorem reachable_step_le (ir : ℤ) (s : State) (h : Reachable ir s) :
    s.step ≤ 5 := by
  induction h with
  | base => exact Nat.zero_le 5
  | tick_ok _ ht ih => exact tick_step_le _ _ _ ih ht

/-! ## Claim theorems -/

/-- C1.  Threshold derivation does not compute per-axis coordinate
differences of first samples: on a calibration dictionary in which every
direction holds captured samples (two per direction, differing from
middle only along the relevant axis), `derive_thresholds` raises a
`TypeError` — `eyes_position[key][1]` selects the second captured sample
(a coordinate pair), and Python cannot subtract coordinate pairs. -/
theorem thresholds_derivation_type_error :
    (keys.all fun k => (lookupKey ep_full k).isSome) = true ∧
    derive_thresholds ep_full = .error .typeError := by
  decide

/-- C2.  In a standard calibration session (space, fixate middle, space,
fixate top, space, fixate right, space, fixate bottom, with both eyes
detected at every fixation), the state just before the fifth space press
has step 4 and captured samples for middle, top, right and bottom — but
no "left" entry at all; the fifth space press, which runs the threshold
derivation, raises rather than completing, so derivation never sees a
left sample (left would only be captured after the step moves to 5). -/
theorem left_samples_missing_at_derivation :
    (stateOf (run_trace (init 100) calib_trace)).map
        (fun s => (s.step, lookupKey s.eyes_position "left",
          (lookupKey s.eyes_position "middle").isSome,
          (lookupKey s.eyes_position "top").isSome,
          (lookupKey s.eyes_position "right").isSome,
          (lookupKey s.eyes_position "bottom").isSome)) =
      some (4, Option.none, true, true, true, true) ∧
    run_trace (init 100) (calib_trace ++ [space_input]) = .err .typeError := by
  decide

/-- C3 counterexample.  With `initial_radius = 100` and consecutive
in-bounds gaze samples, the 19th `play_game` call returns radius 5 (it
does not signal a win), the 20th returns radius 0 (the radius does reach
0), and only the 21st call signals the win. -/
theorem win_not_at_19th_step :
    challenge_chain 19 = .ok (.active 5) ∧
    challenge_chain 20 = .ok (.active 0) ∧
    challenge_chain 21 = .ok .won := by
  decide

/-- C3 amended.  A challenge step with an in-bounds gaze signals
completion exactly when the incoming radius is already below 5; with
`initial_radius = 100` the in-bounds radius sequence is 95, 90, ..., 5,
0, and the 21st `play_game` call signals the win (after the radius
reached 0 on the 20th call). -/
theorem win_when_radius_below_five :
    (∀ (i r : ℤ) (thr : Thresholds) (gx gy cx cy : ℤ), r < 5 →
      (thr.top ≤ gy - cy ∧ gy - cy ≤ thr.bottom ∧
       thr.left ≤ gx - cx ∧ gx - cx ≤ thr.right) →
      play_game i r thr [.num gx, .num gy] [.num cx, .num cy] = .ok .won) ∧
    challenge_chain 19 = .ok (.active 5) ∧
    challenge_chain 20 = .ok (.active 0) ∧
    challenge_chain 21 = .ok .won := by
  refine ⟨?_, by decide, by decide, by decide⟩
  intro i r thr gx gy cx cy hr hin
  obtain ⟨h1, h2, h3, h4⟩ := hin
  simp only [play_game, listIndex, List.get?, pySub]
  rw [if_neg (by omega), if_pos hr]

/-- C3 amended, witness. -/
theorem win_when_radius_below_five_witness :
    play_game 100 0 ⟨-10, 10, 8, -8⟩ [.num 0, .num 0] [.num 0, .num 0] =
      .ok .won :=
  win_when_radius_below_five.1 100 0 ⟨-10, 10, 8, -8⟩ 0 0 0 0 (by decide)
    (by refine ⟨?_, ?_, ?_, ?_⟩ <;> decide)

/-- C4.  For a radius at or above the floor, `play_game` returns the
decremented radius exactly when `top ≤ dy ≤ bottom` and
`left ≤ dx ≤ right` (with `dx`, `dy` the gaze-minus-center coordinate
differences), and returns the initial radius (full reset) otherwise; in
particular, with thresholds top -10, bottom 10, right 8, left -8 and
center (0, 0), the gaze (7, 9) is in-bounds (radius 100 decrements to
95) and the gaze (9, 0) resets the radius to the initial radius. -/
theorem in_bounds_step_and_reset :
    ∀ (i r : ℤ) (thr : Thresholds) (gx gy cx cy : ℤ), 5 ≤ r →
      ((thr.top ≤ gy - cy ∧ gy - cy ≤ thr.bottom ∧
        thr.left ≤ gx - cx ∧ gx - cx ≤ thr.right) →
          play_game i r thr [.num gx, .num gy] [.num cx, .num cy] =
            .ok (.active (r - 5))) ∧
      (¬(thr.top ≤ gy - cy ∧ gy - cy ≤ thr.bottom ∧
         thr.left ≤ gx - cx ∧ gx - cx ≤ thr.right) →
          play_game i r thr [.num gx, .num gy] [.num cx, .num cy] =
            .ok (.active i)) ∧
      play_game i 100 ⟨-10, 10, 8, -8⟩ [.num 7, .num 9] [.num 0, .num 0] =
        .ok (.active 95) ∧
      play_game i 100 ⟨-10, 10, 8, -8⟩ [.num 9, .num 0] [.num 0, .num 0] =
        .ok (.active i) := by
  intro i r thr gx gy cx cy hr
  refine ⟨?_, ?_, rfl, rfl⟩
  · intro hin
    obtain ⟨h1, h2, h3, h4⟩ := hin
    simp only [play_game, listIndex, List.get?, pySub]
    rw [if_neg (by omega), if_neg (by omega)]
  · intro hout
    simp only [play_game, listIndex, List.get?, pySub]
    rw [if_pos (by omega)]

/-- C4, witness. -/
theorem in_bounds_step_and_reset_witness :
    play_game 100 50 ⟨-10, 10, 8, -8⟩ [.num 7, .num 9] [.num 0, .num 0] =
      .ok (.active 45) ∧
    play_game 100 50 ⟨-10, 10, 8, -8⟩ [.num 9, .num 0] [.num 0, .num 0] =
      .ok (.active 100) :=
  ⟨(in_bounds_step_and_reset 100 50 ⟨-10, 10, 8, -8⟩ 7 9 0 0 (by decide)).1
      (by refine ⟨?_, ?_, ?_, ?_⟩ <;> decide),
   (in_bounds_step_and_reset 100 50 ⟨-10, 10, 8, -8⟩ 9 0 0 0 (by decide)).2.1
      (by decide)⟩

/-- C5.  In every reachable session state, the calibration dictionary
has no "center" entry (captures only ever write the five direction
keys); consequently the playing-phase update, which reads its center via
`eyes_position["center"]`, raises a `KeyError` for that key whenever it
runs — the middle reference is never consulted as the challenge
center. -/
theorem center_key_never_stored :
    (∀ (ir : ℤ) (s : State), Reachable ir s →
      lookupKey s.eyes_position "center" = Option.none) ∧
    (∀ s : State, s.step = 5 →
      lookupKey s.eyes_position "center" = Option.none →
      game_phase s = .error (.keyError "center")) := by
  constructor
  · exact reachable_center
  · intro s h5 hc
    unfold game_phase getItem
    rw [if_pos h5, hc]

/-- C5, witness. -/
theorem center_key_never_stored_witness :
    lookupKey (init 100).eyes_position "center" = Option.none ∧
    game_phase { init 100 with step := 5 } = .error (.keyError "center") :=
  ⟨center_key_never_stored.1 100 (init 100) Reachable.base,
   center_key_never_stored.2 { init 100 with step := 5 } rfl rfl⟩

/-- C6 counterexample.  On a calibration dictionary in which the top
direction has zero captured samples (every other direction fully
captured), `derive_thresholds` raises a `KeyError` for "top" — the
missing direction is not silently treated as a zero threshold. -/
theorem missing_direction_raises_key_error :
    derive_thresholds ep_missing_top = .error (.keyError "top") := by
  decide

/-- C6 amended.  If the top direction (the first key the derivation
loop processes) has zero captured samples — its key is absent from
`eyes_position` — then `derive_thresholds` raises `KeyError("top")`
instead of defaulting the threshold to 0: the `.get(key, [])`
dictionary defaulting exists only in the capture path, not in the
derivation, which indexes the dictionary directly. -/
theorem missing_direction_errors_not_zero :
    ∀ ep : EPos, lookupKey ep "top" = Option.none →
      derive_thresholds ep = .error (.keyError "top") := by
  intro ep h
  have h1 : axis_diff ep "top" 1 = .error (.keyError "top") := by
    unfold axis_diff getItem
    rw [h]
  unfold derive_thresholds
  rw [h1]

/-- C6 amended, witness. -/
theorem missing_direction_errors_not_zero_witness :
    derive_thresholds [] = .error (.keyError "top") :=
  missing_direction_errors_not_zero [] rfl

/-- C7.  The capture gate is one-shot and per-eye: with the gate
disarmed, no present sample mutates the dictionary and the gate stays
cleared; with the gate armed, the present sample is appended to the
current direction's sequence (`keys[step - 1]`) and the gate is cleared
in the same operation, other directions' sequences being untouched; and
an absent eye leaves both the dictionary and the armed gate unchanged. -/
theorem capture_gate_one_shot :
    ∀ (st : ℕ) (ep : EPos) (p : PyVal) (k : String) (t : ℤ) (armed : Bool),
      observe_capture false st ep p = .ok (ep, false) ∧
      eye_block Option.none t armed st ep = .ok (.none, ep, armed) ∧
      (key_at st = .ok k →
        observe_capture true st ep p =
          .ok (setKey ep k ((lookupKey ep k).getD [] ++ [p]), false) ∧
        lookupKey (setKey ep k ((lookupKey ep k).getD [] ++ [p])) k =
          some ((lookupKey ep k).getD [] ++ [p]) ∧
        ∀ k', k' ≠ k →
          lookupKey (setKey ep k ((lookupKey ep k).getD [] ++ [p])) k' =
            lookupKey ep k') := by
  intro st ep p k t armed
  refine ⟨rfl, rfl, ?_⟩
  intro hk
  refine ⟨?_, lookupKey_setKey_self ep k _, fun k' h' => lookupKey_setKey_ne ep k k' _ h'⟩
  unfold observe_capture
  rw [if_pos rfl, hk]

/-- C7, witness. -/
theorem capture_gate_one_shot_witness :
    observe_capture false 1 [] (.pt 3 4) = .ok ([], false) ∧
    eye_block Option.none 42 true 1 [] = .ok (.none, [], true) ∧
    observe_capture true 1 [] (.pt 3 4) = .ok ([("middle", [.pt 3 4])], false) ∧
    lookupKey [("middle", [.pt 3 4])] "middle" = some [.pt 3 4] ∧
    lookupKey [("middle", [.pt 3 4])] "top" = Option.none :=
  ⟨(capture_gate_one_shot 1 [] (.pt 3 4) "middle" 42 true).1,
   (capture_gate_one_shot 1 [] (.pt 3 4) "middle" 42 true).2.1,
   ((capture_gate_one_shot 1 [] (.pt 3 4) "middle" 42 true).2.2 rfl).1,
   ((capture_gate_one_shot 1 [] (.pt 3 4) "middle" 42 true).2.2 rfl).2.1,
   ((capture_gate_one_shot 1 [] (.pt 3 4) "middle" 42 true).2.2 rfl).2.2 "top"
     (by decide)⟩

/-- C8.  The calibration step counter stays in `0..5` on every reachable
state and never decreases across a tick; once the step is 5, any event
sequence (in particular a further space press) either exits the process
or leaves the state — step, thresholds and all — exactly as it was, so
no threshold recomputation occurs. -/
theorem step_invariant_and_terminal :
    (∀ (ir : ℤ) (s : State), Reachable ir s → s.step ≤ 5) ∧
    (∀ (s : State) (i : TickInput) (s' : State),
      tick s i = .ok s' → s.step ≤ s'.step) ∧
    (∀ (s : State) (evs : List Ev), s.step = 5 →
      events_phase s evs = .ok Option.none ∨
      events_phase s evs = .ok (some s)) :=
  ⟨reachable_step_le, tick_step_mono, events_phase_terminal⟩

/-- C8, witness. -/
theorem step_invariant_and_terminal_witness :
    (init 100).step ≤ 5 ∧ (init 100).step ≤ (init 100).step ∧
    (events_phase { init 100 with step := 5 } [.space] = .ok Option.none ∨
     events_phase { init 100 with step := 5 } [.space] =
       .ok (some { init 100 with step := 5 })) :=
  ⟨step_invariant_and_terminal.1 100 (init 100) Reachable.base,
   step_invariant_and_terminal.2.1 (init 100) idle_input (init 100) (by decide),
   step_invariant_and_terminal.2.2 { init 100 with step := 5 } [.space] rfl⟩

/-- C9.  Face absence and eye-region absence leave a tick unharmed (the
state is retained, capture and challenge updates are skipped), but a
detected eye whose blob detector returns an *empty* keypoint list
crashes the tick: `keypoints[0].pt` raises an `IndexError`, contradicting
the requirement that detection absence never crashes a tick. -/
theorem detection_absence_crash_on_empty_keypoints :
    tick (init 100) { face := true, leftEye := some [], rightEye := Option.none,
                      threshold := 42, events := [], waitQ := false } =
      .err .indexError ∧
    tick (init 100) { face := false, leftEye := Option.none,
                      rightEye := Option.none, threshold := 42, events := [],
                      waitQ := false } = .ok (init 100) ∧
    tick (init 100) { face := true, leftEye := Option.none,
                      rightEye := Option.none, threshold := 42, events := [],
                      waitQ := false } = .ok (init 100) := by
  decide

/-- C10.  `blob_process` passes an in-range threshold through to the
thresholding-and-detection pipeline and returns its keypoints, and its
assertion fires exactly on thresholds outside `[0, 255]`. -/
theorem blob_threshold_assertion :
    ∀ (t : ℤ) (d : ℤ → List PyVal),
      ((0 ≤ t ∧ t ≤ 255) → blob_process t d = .ok (d t)) ∧
      (¬(0 ≤ t ∧ t ≤ 255) → blob_process t d = .error .assertionError) := by
  intro t d
  constructor
  · intro h
    simp [blob_process, h]
  · intro h
    simp [blob_process, h]

/-- C10, witness. -/
theorem blob_threshold_assertion_witness :
    blob_process 42 (fun _ => []) = .ok [] ∧
    blob_process 300 (fun _ => []) = .error .assertionError :=
  ⟨(blob_threshold_assertion 42 (fun _ => [])).1 (by decide),
   (blob_threshold_assertion 300 (fun _ => [])).2 (by decide)⟩

end EyeTracker
